import Mathlib

/-!
Shallow embedding of the CSV ingestion and normalization pipeline of
src/app.py (personnel dashboard).  Byte buffers are lists of naturals
below 256, cells are strings, numeric cells are rationals.  Each
definition is translated from the function of app.py named in its
doc comment; pandas and numpy primitives are modelled by their
documented behaviour at the exact call sites used there.
-/

/-- The three encoding candidates tried in order by DataLoader.load_data,
from the list at src/app.py line 108. -/
inductive Encoding
  | cp1252
  | utf8
  | latin1
  deriving DecidableEq, Repr

/-- Bytes with no assigned character in Windows-1252; strict cp1252
decoding raises UnicodeDecodeError exactly on them. -/
def cp1252Undefined (b : Nat) : Bool :=
  b == 0x81 || b == 0x8D || b == 0x8F || b == 0x90 || b == 0x9D

/-- Strict Windows-1252 decoding succeeds iff no undefined byte occurs. -/
def cp1252Valid (bs : List Nat) : Bool := bs.all (fun b => !cp1252Undefined b)

/-- One UTF-8 continuation byte. -/
def isCont (b : Nat) : Bool := 0x80 ≤ b && b ≤ 0xBF

/-- Allowed range of the first continuation byte of a three byte
UTF-8 sequence. -/
def cont3First (b c : Nat) : Bool :=
  if b == 0xE0 then 0xA0 ≤ c && c ≤ 0xBF
  else if b == 0xED then 0x80 ≤ c && c ≤ 0x9F
  else isCont c

/-- Allowed range of the first continuation byte of a four byte
UTF-8 sequence. -/
def cont4First (b c : Nat) : Bool :=
  if b == 0xF0 then 0x90 ≤ c && c ≤ 0xBF
  else if b == 0xF4 then 0x80 ≤ c && c ≤ 0x8F
  else isCont c

/-- Strict UTF-8 validity of a byte buffer (RFC 3629): strict utf-8
decoding succeeds exactly on valid buffers. -/
def utf8Valid : List Nat → Bool
  | [] => true
  | b :: rest =>
    if b ≤ 0x7F then utf8Valid rest
    else if 0xC2 ≤ b && b ≤ 0xDF then
      match rest with
      | c1 :: rest2 => isCont c1 && utf8Valid rest2
      | [] => false
    else if 0xE0 ≤ b && b ≤ 0xEF then
      match rest with
      | c1 :: c2 :: rest2 => cont3First b c1 && isCont c2 && utf8Valid rest2
      | _ => false
    else if 0xF0 ≤ b && b ≤ 0xF4 then
      match rest with
      | c1 :: c2 :: c3 :: rest2 =>
        cont4First b c1 && isCont c2 && isCont c3 && utf8Valid rest2
      | _ => false
    else false

/-- Latin-1 assigns a character to every byte value, so strict latin1
decoding of a byte buffer never fails. -/
def latin1Valid (_ : List Nat) : Bool := true

/-- Whether the strict decode attempt of one candidate succeeds. -/
def decodes : Encoding → List Nat → Bool
  | .cp1252, bs => cp1252Valid bs
  | .utf8, bs => utf8Valid bs
  | .latin1, bs => latin1Valid bs

/-- The candidate list of src/app.py line 108. -/
def encodings : List Encoding := [.cp1252, .utf8, .latin1]

/-- The for/else loop of DataLoader.load_data (src/app.py lines
111-131): try each candidate in order, break on the first success;
when the list is exhausted every strict attempt has failed and the
else branch raises ValueError with this message. -/
def tryEncodingsAux : List Encoding → List Nat → Except String Encoding
  | [], _ =>
    .error "Não foi possível decodificar o arquivo CSV com os encodings disponíveis"
  | e :: rest, bs => if decodes e bs then .ok e else tryEncodingsAux rest bs

/-- The decoder over the configured candidate list. -/
def tryEncodings (bs : List Nat) : Except String Encoding :=
  tryEncodingsAux encodings bs

/-- CPF normalization from DataLoader._process_dataframe (line 251):
the regex replace removes every character that is not a digit. -/
def normalizeCPF (s : String) : String :=
  String.mk (s.data.filter Char.isDigit)

/-- Leading and trailing whitespace removal, the effect of str.strip
on the cell. -/
def stripChars (cs : List Char) : List Char :=
  ((cs.dropWhile Char.isWhitespace).reverse.dropWhile Char.isWhitespace).reverse

/-- Split a character list at every dot, keeping empty chunks. -/
def splitDotAux : List Char → List Char → List (List Char)
  | [], acc => [acc.reverse]
  | c :: rest, acc =>
    if c = '.' then acc.reverse :: splitDotAux rest []
    else splitDotAux rest (c :: acc)

/-- Chunks of a character list between its dots. -/
def splitDot (cs : List Char) : List (List Char) := splitDotAux cs []

/-- Numeric value of a digit run; none as soon as a non digit occurs. -/
def natOfDigits (cs : List Char) : Option Nat :=
  cs.foldl
    (fun acc c =>
      match acc with
      | none => none
      | some n => if c.isDigit then some (n * 10 + (c.toNat - 48)) else none)
    (some 0)

/-- Unsigned decimal literal: digits around at most one decimal point,
at least one digit in total. -/
def parseUnsigned (cs : List Char) : Option ℚ :=
  match splitDot cs with
  | [i] =>
    if i.isEmpty then none
    else (natOfDigits i).map (fun n => (n : ℚ))
  | [i, f] =>
    if i.isEmpty && f.isEmpty then none
    else
      match natOfDigits i, natOfDigits f with
      | some a, some b => some ((a : ℚ) + (b : ℚ) / ((10 : ℚ) ^ f.length))
      | _, _ => none
  | _ => none

/-- Model of pd.to_numeric with errors coerce on the decimal literals
occurring in the Idade column: an optional sign followed by an
unsigned decimal literal; anything else coerces to NaN (none). -/
def toNumeric (cs : List Char) : Option ℚ :=
  match cs with
  | '-' :: t => (parseUnsigned t).map (fun q => -q)
  | '+' :: t => parseUnsigned t
  | t => parseUnsigned t

/-- Age cleaning of _process_dataframe (lines 235-238): strip
whitespace, replace commas by dots, coerce to a number treating
errors as NaN. -/
def coerceIdade (s : String) : Option ℚ :=
  toNumeric ((stripChars s.data).map (fun c => if c = ',' then '.' else c))

/-- The row filter of line 240, Series.between(18, 62, inclusive both)
on the coerced age: NaN compares false, so rows whose age did not
coerce are filtered out together with out of range ages. -/
def idadeKept (s : String) : Bool :=
  match coerceIdade s with
  | some q => decide (18 ≤ q) && decide (q ≤ 62)
  | none => false

/-- One record of the table, restricted to the semantic fields the
claims are about.  dataInicio is the parsed Data Início cell as a day
offset, none for NaT; tempoServico is the derived service years cell,
none standing for NaN (or for the column not having been written
yet). -/
structure Row where
  nome : String
  cpf : String
  idade : String
  cargo : String
  unidade : String
  dataInicio : Option Int
  tempoServico : Option ℚ
  deriving DecidableEq, Repr

/-- Build an input row; the derived tempoServico column does not
exist yet. -/
def mkRow (nome cpf idade cargo unidade : String) (dataInicio : Option Int) : Row :=
  ⟨nome, cpf, idade, cargo, unidade, dataInicio, none⟩

/-- The age filtering step of _process_dataframe (line 240). -/
def dropInvalidIdade (rows : List Row) : List Row :=
  rows.filter (fun r => idadeKept r.idade)

/-- The CPF column update of _process_dataframe (line 251). -/
def normalizeCPFRow (r : Row) : Row := { r with cpf := normalizeCPF r.cpf }

/-- DataLoader._process_dataframe at the granularity of the modelled
fields: filter rows by the age bound, then strip CPF punctuation.  The
remaining steps (whitespace cleanup, UF split, column reordering) do
not touch the fields modelled here. -/
def processDataframe (rows : List Row) : List Row :=
  (dropInvalidIdade rows).map normalizeCPFRow

/-- The published rank order list of src/app.py lines 28-48. -/
def ORDEM_CARGOS : List String :=
  ["Todos", "Soldado 2ª Classe", "Soldado 1ª Classe", "Cabo", "3º Sargento",
   "2º Sargento", "1º Sargento", "Subtenente", "Aluno de 1º Ano",
   "Aluno de 2º Ano", "Aluno de 3º Ano", "Aspirante a Oficial", "2º Tenente",
   "2º Tenente 6", "1º Tenente", "Capitão", "Major", "Tenente Coronel",
   "Coronel"]

/-- The reordering in ChartManager.create_cargo_chart (lines 509-513):
keep exactly the published cargo names that occur among the counted
cargos, except the pseudo entry Todos, in published order; the reindex
then drops every other cargo value from the counts. -/
def orderedCargos (present : List String) : List String :=
  ORDEM_CARGOS.filter (fun c => present.contains c && c != "Todos")

/-- Field count handling of pd.read_csv at the call of lines 117-124:
with on_bad_lines set to skip, a data line with more fields than the
header is a bad line and is skipped; a line with fewer fields is kept
and the missing trailing fields are filled with NaN (none). -/
def parseRows (width : Nat) (rows : List (List String)) : List (List (Option String)) :=
  rows.filterMap (fun r =>
    if width < r.length then none
    else some (r.map some ++ List.replicate (width - r.length) none))

/-- Round to the nearest integer, ties to the even integer: the rule
numpy applies inside Series.round. -/
def roundHalfEven (q : ℚ) : ℤ :=
  if q - ⌊q⌋ = (1 : ℚ) / 2 then 2 * round (q / 2) else round q

/-- Series.round(1): round to one decimal place. -/
def round1 (q : ℚ) : ℚ := (roundHalfEven (10 * q) : ℚ) / 10

/-- Exact percentage of one group before rounding, from line 330:
group count over the column sum, times 100. -/
def exactPct (total cnt : Nat) : ℚ := (cnt : ℚ) / (total : ℚ) * 100

/-- The porcentagem column of DataProcessor.aggregate_by_unit (lines
322-330): one group per distinct unit value of the view, each group
given its count over the total times 100, rounded to one decimal.
Group order is irrelevant to the totals considered here. -/
def porcentagens (units : List String) : List ℚ :=
  units.dedup.map (fun u => round1 (exactPct units.length (units.count u)))

/-- Cargo filtering in main (lines 1248-1259) and in
ChartManager.create_age_chart (lines 433-434): an unset, empty or
Todos selection leaves the table untouched, any other selection keeps
the rows whose Cargo equals it. -/
def applyCargoFilter (sel : Option String) (rows : List Row) : List Row :=
  match sel with
  | none => rows
  | some c =>
    if c == "" || c == "Todos" then rows
    else rows.filter (fun r => r.cargo == c)

/-- The days per year figure of lines 180 and 190. -/
def diasPorAno : ℚ := 1461 / 4

/-- Per row value of the apply of lines 179-181 followed by
Series.round(1): days between hoje and Data Início over 365.25
rounded to one decimal when the date is present, a missing value
(None, NaN after rounding) when it is NaT. -/
def tempoRounded (hoje : Int) (dataInicio : Option Int) : Option ℚ :=
  dataInicio.map (fun d => round1 (((hoje - d : Int) : ℚ) / diasPorAno))

/-- Per row effect of fillna(0).clip(0, 40) at line 197: a missing
value becomes zero and everything is clamped into zero to forty. -/
def fillClip (v : Option ℚ) : ℚ := min 40 (max 0 (v.getD 0))

/-- Condition under which Series.round(1) at line 181 raises: the
apply of lines 179-181 returns an all None Series, which pandas types
as object dtype exactly when the column is non empty with every Data
Início equal to NaT, and rounding an object dtype Series raises
TypeError. -/
def allNaT (rows : List Row) : Bool :=
  !rows.isEmpty && rows.all (fun r => r.dataInicio.isNone)

/-- The Tempo de Serviço block of lines 173-201 over the processed
rows, for a datetime typed Data Início column (the branch at line
176).  On the normal path each row gets its rounded value and then
fillna(0).clip(0, 40).  When the column is non empty and every date
is NaT, Series.round(1) raises TypeError before line 197 runs, and
the except handler of lines 199-201 sets the whole column to np.nan,
with no fillna and no clip; the load still succeeds. -/
def tempoStage (hoje : Int) (rows : List Row) : List Row :=
  if allNaT rows then
    rows.map (fun r => { r with tempoServico := none })
  else
    rows.map (fun r =>
      { r with tempoServico := some (fillClip (tempoRounded hoje r.dataInicio)) })

/-- The required column list of src/app.py lines 66-69. -/
def COLUNAS_OBRIGATORIAS : List String :=
  ["Nome", "CPF", "Idade", "Cargo", "Descrição da Unidade de Trabalho",
   "Data Nascimento"]

/-- A loaded table: its column names and its rows. -/
structure DataFrame where
  columns : List String
  rows : List Row
  deriving DecidableEq, Repr

/-- The colunas_faltantes list of load_data line 137: the required
columns absent from the loaded header. -/
def colunasFaltantes (df : DataFrame) : List String :=
  COLUNAS_OBRIGATORIAS.filter (fun c => !df.columns.contains c)

/-- Body of DataLoader.load_data (lines 105-203) at the granularity of
its failure points: the encoding loop (whose else branch raises
ValueError when every candidate fails), the required column check
(raises ValueError naming the missing columns), then
_process_dataframe and the Tempo de Serviço derivation on the rows.
Models loads where the Data Início column is present, matching the
modelled Row which always carries a dataInicio field. -/
def loadBody (hoje : Int) (bytes : List Nat) (df : DataFrame) : Except String DataFrame :=
  match tryEncodings bytes with
  | .error e => .error e
  | .ok _ =>
    if (colunasFaltantes df).isEmpty then
      .ok { columns := df.columns,
            rows := tempoStage hoje (processDataframe df.rows) }
    else
      .error "Colunas obrigatórias faltando"

/-- The outermost try/except of load_data: any exception raised in the
body is caught, logged, surfaced through st.error, and turned into the
no table result None. -/
def load_data (hoje : Int) (bytes : List Nat) (df : DataFrame) : Option DataFrame :=
  match loadBody hoje bytes df with
  | .ok t => some t
  | .error _ => none

/-- A concrete valid input row used by the witnesses. -/
def sampleRow : Row := mkRow "Fulano" "123.456.789-00" "30" "Cabo" "1º GB" none

/-- The same row after a successful load: the CPF is normalized and,
because sampleDF has no parseable Data Início at all, the service
years cell ends as NaN through the except path of lines 199-201. -/
def sampleRowOut : Row :=
  ⟨"Fulano", "12345678900", "30", "Cabo", "1º GB", none, none⟩

/-- A concrete well formed input table used by the witnesses. -/
def sampleDF : DataFrame := ⟨COLUNAS_OBRIGATORIAS, [sampleRow]⟩

/-- The table produced by loading sampleDF. -/
def sampleDFOut : DataFrame := ⟨COLUNAS_OBRIGATORIAS, [sampleRowOut]⟩

/-- Claim C7: national identifier normalization is idempotent, and the
spec example normalizes as stated. -/
theorem normalizeCPF_idempotent :
    (∀ s, normalizeCPF (normalizeCPF s) = normalizeCPF s) ∧
    normalizeCPF "123.456.789-00" = "12345678900" := by
  constructor
  · intro s
    show String.mk ((s.data.filter Char.isDigit).filter Char.isDigit) = _
    rw [List.filter_filter]
    simp only [Bool.and_self]
    rfl
  · rfl

/-- Claim C8: a missing, empty or Todos cargo selection returns the
full table unchanged, and any filtered result is a sublist (a view) of
the source rows, which the pure function leaves untouched. -/
theorem applyCargoFilter_identity (sel : Option String) (rows : List Row) :
    applyCargoFilter none rows = rows ∧
    applyCargoFilter (some "Todos") rows = rows ∧
    (applyCargoFilter sel rows).Sublist rows := by
  refine ⟨rfl, rfl, ?_⟩
  cases sel with
  | none => exact List.Sublist.refl rows
  | some c =>
    show (if c == "" || c == "Todos" then rows
      else rows.filter (fun r => r.cargo == c)).Sublist rows
    by_cases h : (c == "" || c == "Todos") = true
    · rw [if_pos h]
    · rw [if_neg h]
      exact List.filter_sublist rows

/-- Claim C5 counterexample: the cargo reordering of
create_cargo_chart drops a rank that matches no published name instead
of assigning it a sentinel order after all known ranks. -/
theorem c5_unknown_cargo_dropped :
    orderedCargos ["Comandante Especial", "Coronel"] = ["Coronel"] ∧
    "Comandante Especial" ∉ orderedCargos ["Comandante Especial", "Coronel"] := by
  constructor
  · rfl
  · decide

/-- Claim C5 (amended): the reordering is a pure function of the
present cargo values; it lists, in published order, exactly the
published names that are present and differ from Todos, so every
unknown rank is dropped from the chart rather than ordered last. -/
theorem orderedCargos_spec (present : List String) :
    (orderedCargos present).Sublist ORDEM_CARGOS ∧
    ∀ c, c ∈ orderedCargos present ↔
      (c ∈ ORDEM_CARGOS ∧ c ∈ present ∧ c ≠ "Todos") := by
  constructor
  · exact List.filter_sublist ORDEM_CARGOS
  · intro c
    simp only [orderedCargos, List.mem_filter, Bool.and_eq_true, List.contains,
      List.elem_eq_mem, decide_eq_true_eq, bne_iff_ne, ne_eq]

/-- Claim C4 counterexample: with a three column header, a data row
carrying only two fields is kept and padded with a missing field, so
three rows in give three rows out, not two. -/
theorem c4_short_row_padded :
    (parseRows 3 [["a", "b", "c"], ["d", "e"], ["f", "g", "h"]]).length = 3 ∧
    ¬ (parseRows 3 [["a", "b", "c"], ["d", "e"], ["f", "g", "h"]]).length = 3 - 1 ∧
    [some "d", some "e", (none : Option String)] ∈
      parseRows 3 [["a", "b", "c"], ["d", "e"], ["f", "g", "h"]] := by
  refine ⟨rfl, by decide, ?_⟩
  decide

/-- Claim C4 (amended): the row splitter keeps exactly the data rows
with at most the header field count, padding short rows with missing
fields, and skips exactly the rows with more fields than the header. -/
theorem parseRows_spec (width : Nat) (rows : List (List String)) :
    parseRows width rows =
      (rows.filter (fun r => decide (r.length ≤ width))).map
        (fun r => r.map some ++ List.replicate (width - r.length) none) := by
  induction rows with
  | nil => rfl
  | cons r rs ih =>
    by_cases h : width < r.length
    · have h2 : ¬ r.length ≤ width := Nat.not_le.mpr h
      simp [parseRows, List.filterMap_cons, List.filter_cons, h, h2] at ih ⊢
      exact ih
    · have h2 : r.length ≤ width := Nat.not_lt.mp h
      simp [parseRows, List.filterMap_cons, List.filter_cons, h, h2] at ih ⊢
      exact ih

/-- Claim C1 counterexample: the age 65 coerces successfully and lies
inside the bound 18 to 70 the claim names as the default, yet the row
carrying it is dropped by _process_dataframe, so the default bound of
the code is not 18 to 70. -/
theorem c1_age65_dropped :
    coerceIdade "65" = some 65 ∧ ((18 : ℚ) ≤ 65 ∧ (65 : ℚ) ≤ 70) ∧
    processDataframe [mkRow "Fulano" "1" "65" "Cabo" "1º GB" none] = [] := by
  refine ⟨by decide, by norm_num, by decide⟩

/-- Claim C1 (amended): every record kept by _process_dataframe has an
age that coerced successfully and lies in the hardcoded inclusive
bound 18 to 62. -/
theorem kept_idade_in_bound (r : Row) (rows : List Row)
    (h : r ∈ processDataframe rows) :
    ∃ q, coerceIdade r.idade = some q ∧ 18 ≤ q ∧ q ≤ 62 := by
  unfold processDataframe at h
  obtain ⟨r0, hr0, heq⟩ := List.mem_map.mp h
  have hk : idadeKept r0.idade = true := (List.mem_filter.mp hr0).2
  have hid : r.idade = r0.idade := by rw [← heq]; rfl
  rw [hid]
  unfold idadeKept at hk
  cases hc : coerceIdade r0.idade with
  | none => rw [hc] at hk; exact absurd hk (by simp)
  | some q =>
    rw [hc] at hk
    simp only [Bool.and_eq_true, decide_eq_true_eq] at hk
    exact ⟨q, rfl, hk.1, hk.2⟩

/-- Claim C1 witness: a concrete kept record instantiating the bound
theorem. -/
theorem kept_idade_in_bound_witness :
    sampleRowOut ∈ processDataframe [sampleRow] ∧
    ∃ q, coerceIdade sampleRowOut.idade = some q ∧ 18 ≤ q ∧ q ≤ 62 :=
  ⟨by decide, kept_idade_in_bound sampleRowOut [sampleRow] (by decide)⟩

/-- Claim C2 counterexample: an age cell that fails numeric coercion
makes _process_dataframe drop the whole row; it is not kept with an
unknown age, and no strict mode switch exists in the code. -/
theorem c2_unknown_age_dropped :
    coerceIdade "abc" = none ∧
    processDataframe [mkRow "Fulano" "1" "abc" "Cabo" "1º GB" none] = [] := by
  exact ⟨by decide, by decide⟩

/-- Claim C2 (amended): a row whose age cell does not coerce to a
number is unconditionally removed by the age filter. -/
theorem unknown_age_not_kept (r : Row) (rows : List Row)
    (h : coerceIdade r.idade = none) :
    r ∉ dropInvalidIdade rows := by
  intro hmem
  have hk : idadeKept r.idade = true := (List.mem_filter.mp hmem).2
  unfold idadeKept at hk
  rw [h] at hk
  exact absurd hk (by simp)

/-- Claim C2 witness: a concrete row with unparseable age is absent
from the filtered rows. -/
theorem unknown_age_not_kept_witness :
    coerceIdade (mkRow "Fulano" "1" "abc" "Cabo" "1º GB" none).idade = none ∧
    mkRow "Fulano" "1" "abc" "Cabo" "1º GB" none ∉
      dropInvalidIdade [mkRow "Fulano" "1" "abc" "Cabo" "1º GB" none] :=
  ⟨by decide, unknown_age_not_kept _ _ (by decide)⟩

/-- Claim C3 counterexample: at the point where every strict decode
attempt has failed (the candidate list is exhausted), the decoder body
produces the ValueError that fails the ingestion call; it does not
return a lossy replacement decode, and no DecodingDegraded warning
exists in the code. -/
theorem c3_exhausted_candidates_error :
    tryEncodingsAux [] [129] =
      Except.error
        "Não foi possível decodificar o arquivo CSV com os encodings disponíveis" := by
  rfl

/-- Claim C3 (amended): the decoder never fails for a different
reason: the final candidate latin1 accepts every byte buffer, so some
candidate of the ordered list always succeeds and the exhausted branch
is unreachable; decoding therefore never raises to the caller. -/
theorem tryEncodings_never_fails (bs : List Nat) :
    ∃ e, tryEncodings bs = Except.ok e := by
  unfold tryEncodings encodings
  by_cases h1 : cp1252Valid bs = true
  · exact ⟨.cp1252, by simp [tryEncodingsAux, decodes, h1]⟩
  · by_cases h2 : utf8Valid bs = true
    · exact ⟨.utf8, by simp [tryEncodingsAux, decodes, h1, h2]⟩
    · exact ⟨.latin1, by simp [tryEncodingsAux, decodes, latin1Valid, h1, h2]⟩

/-- Half even rounding lands within one half of its argument. -/
theorem roundHalfEven_close (q : ℚ) : |(roundHalfEven q : ℚ) - q| ≤ 1 / 2 := by
  unfold roundHalfEven
  split
  · next h =>
    have hq : q = (⌊q⌋ : ℚ) + 1 / 2 := by linarith
    rcases Int.even_or_odd ⌊q⌋ with he | ho
    · obtain ⟨m, hm⟩ := he
      have h2 : q / 2 = 1 / 4 + (m : ℚ) := by
        rw [hq, hm]; push_cast; ring
      have hq4 : round ((1 : ℚ) / 4) = 0 := by
        rw [round_eq, show (1 : ℚ) / 4 + 1 / 2 = 3 / 4 by norm_num,
          Int.floor_eq_iff]
        norm_num
      have hr : round (q / 2) = m := by
        rw [h2, round_add_int, hq4, zero_add]
      rw [hr, hq, hm]
      push_cast
      rw [abs_le]
      constructor <;> linarith
    · obtain ⟨m, hm⟩ := ho
      have h2 : q / 2 = 3 / 4 + (m : ℚ) := by
        rw [hq, hm]; push_cast; ring
      have hq4 : round ((3 : ℚ) / 4) = 1 := by
        rw [round_eq, show (3 : ℚ) / 4 + 1 / 2 = 5 / 4 by norm_num,
          Int.floor_eq_iff]
        norm_num
      have hr : round (q / 2) = 1 + m := by
        rw [h2, round_add_int, hq4]
      rw [hr, hq, hm]
      push_cast
      rw [abs_le]
      constructor <;> linarith
  · next h =>
    rw [abs_sub_comm]
    exact abs_sub_round q

/-- Rounding to one decimal moves a rational by at most one twentieth. -/
theorem round1_close (q : ℚ) : |round1 q - q| ≤ 1 / 20 := by
  have h := roundHalfEven_close (10 * q)
  have e : round1 q - q = ((roundHalfEven (10 * q) : ℚ) - 10 * q) / 10 := by
    unfold round1; ring
  rw [e, abs_div, show |(10 : ℚ)| = 10 from by norm_num]
  linarith

/-- Summing rounded values moves the sum by at most one twentieth per
entry. -/
theorem sum_round1_close (ps : List ℚ) :
    |(ps.map round1).sum - ps.sum| ≤ ps.length * (1 / 20) := by
  induction ps with
  | nil => simp
  | cons p ps ih =>
    simp only [List.map_cons, List.sum_cons, List.length_cons]
    push_cast
    have h1 := round1_close p
    have e : round1 p + (ps.map round1).sum - (p + ps.sum)
        = (round1 p - p) + ((ps.map round1).sum - ps.sum) := by ring
    rw [e]
    calc |(round1 p - p) + ((ps.map round1).sum - ps.sum)|
        ≤ |round1 p - p| + |(ps.map round1).sum - ps.sum| := abs_add _ _
      _ ≤ 1 / 20 + ps.length * (1 / 20) := by linarith
      _ = (ps.length + 1) * (1 / 20) := by ring

/-- The exact group percentages of a nonempty view sum to one hundred,
because the group counts partition the view. -/
theorem exactPct_dedup_sum (units : List String) (h : units ≠ []) :
    (units.dedup.map (fun u => exactPct units.length (units.count u))).sum
      = 100 := by
  have hlen : units.length ≠ 0 := by
    intro h0; exact h (List.length_eq_zero.mp h0)
  have hlenQ : (units.length : ℚ) ≠ 0 := Nat.cast_ne_zero.mpr hlen
  have e1 : (fun u => exactPct units.length (units.count u))
      = (fun u => ((units.count u : ℕ) : ℚ) * (100 / (units.length : ℚ))) := by
    funext u; unfold exactPct; ring
  rw [e1, List.sum_map_mul_right]
  have e2 : (units.dedup.map (fun u => ((units.count u : ℕ) : ℚ))).sum
      = (((units.dedup.map (fun u => units.count u)).sum : ℕ) : ℚ) := by
    rw [Nat.cast_list_sum, List.map_map]
    rfl
  rw [e2, List.sum_map_count_dedup_eq_length]
  field_simp

/-- Claim C6 (amended): for a nonempty view the rounded per group
percentages sum to one hundred up to one twentieth of a point per
group; the fixed tolerance of one tenth claimed by the spec only
follows for at most two groups. -/
theorem porcentagens_sum_close (units : List String) (h : units ≠ []) :
    |(porcentagens units).sum - 100| ≤ (units.dedup.length : ℚ) * (1 / 20) := by
  unfold porcentagens
  have e : units.dedup.map (fun u => round1 (exactPct units.length (units.count u)))
      = ((units.dedup.map (fun u => exactPct units.length (units.count u))).map
          round1) := by
    rw [List.map_map]
    rfl
  rw [e]
  have h2 := sum_round1_close
    (units.dedup.map (fun u => exactPct units.length (units.count u)))
  rw [exactPct_dedup_sum units h, List.length_map] at h2
  exact h2

/-- Claim C6 witness: a one group view instantiating the tolerance
theorem. -/
theorem porcentagens_sum_close_witness :
    (["a"] : List String) ≠ [] ∧
    |(porcentagens ["a"]).sum - 100| ≤
      (((["a"] : List String).dedup.length : ℕ) : ℚ) * (1 / 20) :=
  ⟨by decide, porcentagens_sum_close ["a"] (by decide)⟩

/-- Claim C6 counterexample: six equally sized groups each round to
16.7 percent, so the reported percentages sum to 100.2 and miss the
claimed tolerance of one tenth. -/
theorem c6_six_groups_exceed_tolerance :
    (porcentagens ["a", "b", "c", "d", "e", "f"]).sum = 501 / 5 ∧
    ¬ |(porcentagens ["a", "b", "c", "d", "e", "f"]).sum - 100| ≤ 1 / 10 := by
  have hfl : (⌊(500 / 3 : ℚ)⌋ : ℚ) = 166 := by
    rw [show ⌊(500 / 3 : ℚ)⌋ = 166 from by rw [Int.floor_eq_iff]; norm_num]
    norm_num
  have hcond : ¬ ((500 / 3 : ℚ) - (⌊(500 / 3 : ℚ)⌋ : ℚ) = 1 / 2) := by
    rw [hfl]; norm_num
  have hrd : round ((500 : ℚ) / 3) = 167 := by
    rw [round_eq, show (500 : ℚ) / 3 + 1 / 2 = 1003 / 6 by norm_num,
      Int.floor_eq_iff]
    norm_num
  have hex : exactPct 6 1 = 500 / 3 / 10 := by
    unfold exactPct; push_cast; norm_num
  have hval : round1 (exactPct 6 1) = 167 / 10 := by
    rw [hex]
    unfold round1 roundHalfEven
    rw [show (10 : ℚ) * (500 / 3 / 10) = 500 / 3 by norm_num]
    rw [if_neg hcond, hrd]
    norm_num
  have hp0 : porcentagens ["a", "b", "c", "d", "e", "f"] =
      [round1 (exactPct 6 1), round1 (exactPct 6 1), round1 (exactPct 6 1),
       round1 (exactPct 6 1), round1 (exactPct 6 1), round1 (exactPct 6 1)] := rfl
  have hsum : (porcentagens ["a", "b", "c", "d", "e", "f"]).sum = 501 / 5 := by
    rw [hp0, hval]
    norm_num [List.sum_cons, List.sum_nil]
  refine ⟨hsum, ?_⟩
  rw [hsum, show (501 / 5 : ℚ) - 100 = 1 / 5 by norm_num]
  rw [show |(1 / 5 : ℚ)| = 1 / 5 from abs_of_pos (by norm_num)]
  norm_num

/-- The fillna and clip step bounds its result by zero and forty, and
turns a missing value into exactly zero. -/
theorem fillClip_bounds (v : Option ℚ) :
    0 ≤ fillClip v ∧ fillClip v ≤ 40 ∧ fillClip none = 0 := by
  refine ⟨?_, ?_, ?_⟩
  · exact le_min (by norm_num) (le_max_left 0 _)
  · exact min_le_left 40 _
  · rfl

/-- Claim C9: the top level load either returns a table or the no
table result None: every failure of the body (decoding, required
column check, processing) is caught by the outermost handler and
turned into None with an error message, and in particular a table
missing every required column always loads to None rather than
letting the ValueError escape. -/
theorem load_data_total (hoje : Int) (bytes : List Nat) (df : DataFrame) :
    ((∃ t, load_data hoje bytes df = some t) ∨
      (∃ msg, loadBody hoje bytes df = Except.error msg ∧
        load_data hoje bytes df = none)) ∧
    (∀ rows, load_data hoje bytes ⟨[], rows⟩ = none) := by
  constructor
  · cases hb : loadBody hoje bytes df with
    | error msg =>
      refine Or.inr ⟨msg, rfl, ?_⟩
      unfold load_data
      rw [hb]
    | ok t =>
      refine Or.inl ⟨t, ?_⟩
      unfold load_data
      rw [hb]
  · intro rows
    unfold load_data loadBody
    cases htry : tryEncodings bytes with
    | error e => rfl
    | ok enc => rfl

/-- Claim C10 counterexample: a successful load in which every Data
Início cell is NaT returns a table whose record has a missing (NaN)
service years cell, not zero: Series.round(1) raises TypeError on the
all None object Series and the except handler of lines 199-201 sets
the whole column to np.nan without fillna or clip. -/
theorem c10_all_missing_dates_give_nan :
    load_data 0 [65] sampleDF = some sampleDFOut ∧
    sampleRowOut ∈ sampleDFOut.rows ∧
    sampleRowOut.dataInicio = none ∧
    sampleRowOut.tempoServico = none ∧
    ¬ sampleRowOut.tempoServico = some 0 := by
  refine ⟨by decide, by decide, rfl, rfl, by decide⟩

/-- Claim C10 (amended): after a successful load, either the tempo
block took its normal path, and then every record carries a service
years value clamped into zero to forty with missing start dates
receiving exactly zero, or the Data Início column was non empty with
every date missing, and then the table is still returned but every
record carries a missing (NaN) service years cell. -/
theorem loaded_tempo_in_range_amended (hoje : Int) (bytes : List Nat)
    (df out : DataFrame) (h1 : load_data hoje bytes df = some out) :
    (∀ r ∈ out.rows, ∃ v, r.tempoServico = some v ∧
        0 ≤ v ∧ v ≤ 40 ∧ (r.dataInicio = none → v = 0)) ∨
    (out.rows ≠ [] ∧
      ∀ r ∈ out.rows, r.dataInicio = none ∧ r.tempoServico = none) := by
  have hrows : out.rows = tempoStage hoje (processDataframe df.rows) := by
    unfold load_data at h1
    cases hb : loadBody hoje bytes df with
    | error msg =>
      rw [hb] at h1
      exact Option.noConfusion h1
    | ok t =>
      rw [hb] at h1
      have ht : t = out := Option.some.inj h1
      unfold loadBody at hb
      cases htry : tryEncodings bytes with
      | error e =>
        rw [htry] at hb
        exact Except.noConfusion hb
      | ok enc =>
        rw [htry] at hb
        by_cases hc : (colunasFaltantes df).isEmpty = true
        · rw [if_pos hc] at hb
          have hstruct := Except.ok.inj hb
          rw [← ht, ← hstruct]
        · rw [if_neg hc] at hb
          exact Except.noConfusion hb
  by_cases hall : allNaT (processDataframe df.rows) = true
  · right
    rw [hrows]
    unfold tempoStage
    rw [if_pos hall]
    unfold allNaT at hall
    rw [Bool.and_eq_true, Bool.not_eq_true', List.all_eq_true] at hall
    constructor
    · intro hmap
      have hnil : processDataframe df.rows = [] := List.map_eq_nil_iff.mp hmap
      rw [hnil] at hall
      exact Bool.noConfusion (hall.1.symm.trans rfl)
    · intro r hr
      obtain ⟨r0, hr0, heq⟩ := List.mem_map.mp hr
      have hnone := hall.2 r0 hr0
      have hd : r0.dataInicio = none := by
        cases hd2 : r0.dataInicio with
        | none => rfl
        | some d =>
          rw [hd2] at hnone
          exact Bool.noConfusion hnone
      constructor
      · rw [← heq]
        exact hd
      · rw [← heq]
  · left
    rw [hrows]
    unfold tempoStage
    rw [if_neg hall]
    intro r hr
    obtain ⟨r0, hr0, heq⟩ := List.mem_map.mp hr
    refine ⟨fillClip (tempoRounded hoje r0.dataInicio), ?_, ?_, ?_, ?_⟩
    · rw [← heq]
    · exact (fillClip_bounds _).1
    · exact (fillClip_bounds _).2.1
    · intro hnone
      rw [← heq] at hnone
      have hd : r0.dataInicio = none := hnone
      rw [hd]
      exact (fillClip_bounds none).2.2

/-- Claim C10 witness: a concrete successful load instantiating the
amended dichotomy. -/
theorem loaded_tempo_in_range_amended_witness :
    load_data 0 [65] sampleDF = some sampleDFOut ∧
    ((∀ r ∈ sampleDFOut.rows, ∃ v, r.tempoServico = some v ∧
        0 ≤ v ∧ v ≤ 40 ∧ (r.dataInicio = none → v = 0)) ∨
      (sampleDFOut.rows ≠ [] ∧
        ∀ r ∈ sampleDFOut.rows, r.dataInicio = none ∧ r.tempoServico = none)) :=
  ⟨by decide, loaded_tempo_in_range_amended 0 [65] sampleDF sampleDFOut (by decide)⟩
